import Mathlib

/-!
Shallow embedding of the kak-tree-sitter daemon (src/main.rs).

The daemon accepts connections on a Unix socket, reads one request payload
per connection, decodes it as JSON, and dispatches it to a stateful
request handler that caches parsed syntax trees keyed by
(session name, buffer name).  External effects (the language registry,
the filesystem, the tree-sitter parser, and the serde JSON string
decoder) are modelled as an explicit environment record; the serving loop
is modelled as a fold over the list of accept results.  Rust `unwrap()`
calls on `Err` are modelled as an explicit panic outcome that aborts the
whole loop, mirroring a process panic.
-/

namespace KakTreeSitter

/-- Opaque handle for a tree-sitter grammar (`tree_sitter::Language`). -/
structure Language where
  id : Nat
deriving DecidableEq

/-- Opaque handle for a parsed syntax tree (`tree_sitter::Tree`). -/
structure Tree where
  id : Nat
deriving DecidableEq

/-- `type SessionName = String;` in src/main.rs. -/
abbrev SessionName := String

/-- `type BufferName = String;` in src/main.rs. -/
abbrev BufferName := String

/-- Key of the tree cache: `(SessionName, BufferName)`. -/
abbrev TreeKey := SessionName × BufferName

/-- The request enum of the repository (variant used in src/main.rs:
`Request::Highlight { session_name, buffer_name, lang, path }`).
The `PathBuf` payload is modelled as a string path. -/
inductive Request where
  | highlight (session_name : SessionName) (buffer_name : BufferName)
      (lang : String) (path : String)
deriving DecidableEq

/-- Error message of a failed I/O operation (`std::io::Error`),
modelled by its display text. -/
abbrev IoError := String

/-- A Rust panic caused by `unwrap()`/`expect()` on an `Err` value.
The process dies; no further code of the daemon runs. -/
inductive Panic where
  | readPanic (e : IoError)
  | ioPanic (e : IoError)
  | setLangPanic (e : String)
deriving DecidableEq

/-- One `println!`/`eprintln!` of the daemon, modelled structurally with
the interpolated arguments kept as fields. -/
inductive LogEntry where
  | clientConnected
  | requestLogged (request : String)
  | bye
  | cannotParse (request : String) (err : String)
  | handlingHighlight (session : SessionName) (buffer : BufferName) (lang : String)
  | treeParsed (session : SessionName) (buffer : BufferName)
deriving DecidableEq

/-- External world of one request: the language registry
(`languages::get_lang`, a pure `name -> grammar | absent` collaborator),
the filesystem (`std::fs::read_to_string`), the parser configuration step
(`Parser::set_language`), the parser itself (`Parser::parse`, which may
fail internally and yield no tree), and the serde JSON string decoder
(`serde_json::from_str::<Request>`). -/
structure Env where
  get_lang : String → Option Language
  read_to_string : String → Except IoError String
  set_language : Language → Except String Unit
  parse : Language → String → Option Tree
  from_str : String → Except String Request

/-- Insert with the semantics of `HashMap::insert`: the new binding
replaces any previous binding of the same key, all other bindings are
kept. -/
def insertTree (k : TreeKey) (t : Tree) (m : List (TreeKey × Tree)) :
    List (TreeKey × Tree) :=
  (k, t) :: m.filter (fun e => !(e.1 == k))

/-- Lookup with the semantics of `HashMap::get`. -/
def lookupTree (m : List (TreeKey × Tree)) (k : TreeKey) : Option Tree :=
  (m.find? (fun e => e.1 == k)).map (fun e => e.2)

/-- `RequestHandler`: the stateful core owning the tree cache
(`trees: HashMap<(SessionName, BufferName), tree_sitter::Tree>`). -/
structure RequestHandler where
  trees : List (TreeKey × Tree)
deriving DecidableEq

/-- `RequestHandler::new()`. -/
def RequestHandler.new : RequestHandler := ⟨[]⟩

/-- `RequestHandler::parse_buffer`: read the file (`unwrap` on failure is
a panic), configure the parser (`unwrap` on failure is a panic), parse,
and on `Some(parsed)` insert the tree at key `(session, buffer)`;
on `None` do nothing. -/
def RequestHandler.parse_buffer (env : Env) (h : RequestHandler)
    (session : SessionName) (buffer : BufferName) (lang : Language)
    (path : String) : Except Panic (RequestHandler × List LogEntry) :=
  match env.read_to_string path with
  | .error e => .error (Panic.ioPanic e)
  | .ok content =>
    match env.set_language lang with
    | .error e => .error (Panic.setLangPanic e)
    | .ok _ =>
      match env.parse lang content with
      | some parsed =>
        .ok (⟨insertTree (session, buffer) parsed h.trees⟩,
             [LogEntry.treeParsed session buffer])
      | none => .ok (h, [])

/-- `RequestHandler::handle_highlight_req`: resolve the language name;
if unresolved, do nothing at all; otherwise log and parse the buffer. -/
def RequestHandler.handle_highlight_req (env : Env) (h : RequestHandler)
    (session : SessionName) (buffer : BufferName) (lang_str : String)
    (path : String) : Except Panic (RequestHandler × List LogEntry) :=
  match env.get_lang lang_str with
  | some lang =>
    match h.parse_buffer env session buffer lang path with
    | .error p => .error p
    | .ok (h2, logs) =>
      .ok (h2, LogEntry.handlingHighlight session buffer lang_str :: logs)
  | none => .ok (h, [])

/-- `RequestHandler::handle_request`: decode the payload with serde and
dispatch; a decode failure is logged (with the payload and the reason)
and nothing else happens. -/
def RequestHandler.handle_request (env : Env) (h : RequestHandler)
    (request : String) : Except Panic (RequestHandler × List LogEntry) :=
  match env.from_str request with
  | .ok (Request.highlight session_name buffer_name lang path) =>
    h.handle_highlight_req env session_name buffer_name lang path
  | .error err => .ok (h, [LogEntry.cannotParse request err])

/-- One accept-iteration input of the serving loop: either the listener
yielded an error, or a connection whose payload read succeeded or
failed. -/
inductive Conn where
  | acceptError
  | accepted (readResult : Except IoError String)

/-- How the serving loop ended. -/
inductive RunOutcome where
  | finished
  | panicked (p : Panic)
deriving DecidableEq

/-- Observable result of running the serving loop on a list of accept
results: the final handler state, the emitted log, the payloads that were
handed to the request handler, and how the loop ended. -/
structure RunResult where
  handler : RequestHandler
  log : List LogEntry
  handled : List String
  outcome : RunOutcome
deriving DecidableEq

/-- `Daemon::run`'s `for client in self.unix_listener.incoming()` loop:
an `Err` accept result is skipped silently; a failed socket read panics
(`unwrap`); an empty payload breaks the loop; any other payload is handed
to `RequestHandler::handle_request` and the loop continues. -/
def runLoop (env : Env) (h : RequestHandler) : List Conn → RunResult
  | [] => ⟨h, [], [], RunOutcome.finished⟩
  | Conn.acceptError :: rest => runLoop env h rest
  | Conn.accepted (.error e) :: _ =>
    ⟨h, [LogEntry.clientConnected], [], RunOutcome.panicked (Panic.readPanic e)⟩
  | Conn.accepted (.ok request) :: rest =>
    if request = "" then
      ⟨h, [LogEntry.clientConnected, LogEntry.requestLogged request], [],
       RunOutcome.finished⟩
    else
      match RequestHandler.handle_request env h request with
      | .error p =>
        ⟨h, [LogEntry.clientConnected, LogEntry.requestLogged request],
         [request], RunOutcome.panicked p⟩
      | .ok (h2, logs2) =>
        let r := runLoop env h2 rest
        ⟨r.handler,
         LogEntry.clientConnected :: LogEntry.requestLogged request ::
           (logs2 ++ r.log),
         request :: r.handled, r.outcome⟩

/-- `Daemon`: the runtime directory it owns (the listener is modelled by
the `Conn` list fed to `runLoop`). -/
structure Daemon where
  daemon_dir : String

/-- `std::fs::remove_dir_all` on the model filesystem (a predicate on
directory paths telling which directories exist). -/
def removeDirAll (fs : String → Bool) (dir : String) : String → Bool :=
  fun d => if d == dir then false else fs d

/-- `impl Drop for Daemon`: on daemon termination, best-effort removal of
the runtime directory (errors are discarded with `let _ = ...`). -/
def Daemon.drop (d : Daemon) (fs : String → Bool) : String → Bool :=
  removeDirAll fs d.daemon_dir

/-- Modelled from the spec: the structured JSON value of the wire format;
the codec itself lives in src/request.rs (the serde derive on `Request`),
which is not under src/. -/
inductive Json where
  | null
  | bool (b : Bool)
  | num (n : Int)
  | str (s : String)
  | arr (elems : List Json)
  | obj (fields : List (String × Json))

/-- Field lookup in a JSON object. -/
def jlookup (fields : List (String × Json)) (key : String) : Option Json :=
  (fields.find? (fun f => f.1 == key)).map (fun f => f.2)

/-- Modelled from the spec: `encode(Request) -> bytes` at the level of
the structured payload, following §6: a tagged object
`{ kind: "Highlight", session, buffer, language, path }`
(src/request.rs, which defines the serde serialization of `Request`, is
not under src/). -/
def encode : Request → Json
  | Request.highlight session buffer lang path =>
    Json.obj [("kind", Json.str "Highlight"), ("session", Json.str session),
              ("buffer", Json.str buffer), ("language", Json.str lang),
              ("path", Json.str path)]

/-- Modelled from the spec: `decode(bytes) -> Request | DecodeError` at
the level of the structured payload; an unrecognized `kind`, a missing
field, or an ill-typed payload is a decode error carrying a reason
(src/request.rs, which defines the serde deserialization of `Request`,
is not under src/). -/
def decode : Json → Except String Request
  | Json.obj fields =>
    match jlookup fields "kind" with
    | some (Json.str "Highlight") =>
      match jlookup fields "session", jlookup fields "buffer",
            jlookup fields "language", jlookup fields "path" with
      | some (Json.str session), some (Json.str buffer),
        some (Json.str lang), some (Json.str path) =>
        .ok (Request.highlight session buffer lang path)
      | _, _, _, _ => .error "missing or ill-typed field"
    | some _ => .error "unrecognized kind"
    | none => .error "missing kind tag"
  | _ => .error "payload is not an object"

/-- The single-quote character, as a string. -/
def squote : String := String.singleton (Char.ofNat 39)

/-- `KakSession`: a target Kakoune session and an optional client. -/
structure KakSession where
  session_name : String
  client_name : Option String

/-- `KakSession::fmt_cmd`: wrap a command for delivery to Kakoune.  With
a client name the command is wrapped in an `eval -client` directive
quoted in single quotes; either way a newline is appended. -/
def KakSession.fmt_cmd (ks : KakSession) (cmd : String) : String :=
  match ks.client_name with
  | some client =>
    "eval -client " ++ client ++ " " ++ squote ++ cmd ++ squote ++ "\n"
  | none => cmd ++ "\n"

/-- A sample grammar handle, used to instantiate theorems. -/
def rustLang : Language := ⟨1⟩

/-- A sample syntax tree, used to instantiate theorems. -/
def treeOne : Tree := ⟨10⟩

/-- A second, distinct sample syntax tree. -/
def treeTwo : Tree := ⟨11⟩

/-- A sample language registry resolving only the name `rust`. -/
def getLangW : String → Option Language :=
  fun l => if l = "rust" then some rustLang else none

/-- A sample environment: the file `/f` holds `one`, which parses to
`treeOne`; the payload `good` decodes to a Highlight request for `/f`. -/
def envW1 : Env :=
  ⟨getLangW,
   fun p => if p = "/f" then .ok "one" else .error "unreadable",
   fun _ => .ok (),
   fun _ c => if c = "one" then some treeOne else none,
   fun r => if r = "good" then .ok (Request.highlight "s" "b" "rust" "/f")
            else .error "bad payload"⟩

/-- A sample environment for a later point in time: the file `/f` now
holds `two`, which parses to `treeTwo`. -/
def envW2 : Env :=
  ⟨getLangW,
   fun p => if p = "/f" then .ok "two" else .error "unreadable",
   fun _ => .ok (),
   fun _ c => if c = "two" then some treeTwo else none,
   fun _ => .error "bad payload"⟩

/-- A sample environment in which no file is readable and the payload
`bad-path` decodes to a Highlight request for a missing file. -/
def envW3 : Env :=
  ⟨getLangW,
   fun _ => .error "unreadable",
   fun _ => .ok (),
   fun _ _ => none,
   fun r => if r = "bad-path" then .ok (Request.highlight "s" "b" "rust" "/missing")
            else .error "bad payload"⟩

/-- A sample environment whose parser always fails internally (returns
no tree). -/
def envW4 : Env :=
  ⟨getLangW,
   fun p => if p = "/f" then .ok "one" else .error "unreadable",
   fun _ => .ok (),
   fun _ _ => none,
   fun _ => .error "bad payload"⟩

end KakTreeSitter

namespace KakTreeSitter

/-! ## Helper lemmas about the tree cache and the request handler -/

/-- Filtering by a predicate after filtering by its negation leaves
nothing. -/
theorem filter_p_filter_not (p : (TreeKey × Tree) → Bool)
    (l : List (TreeKey × Tree)) :
    (l.filter (fun a => !(p a))).filter p = [] := by
  induction l with
  | nil => rfl
  | cons a t ih =>
    cases hp : p a with
    | true =>
      rw [List.filter_cons_of_neg]
      · exact ih
      · simp [hp]
    | false =>
      rw [List.filter_cons_of_pos]
      · rw [List.filter_cons_of_neg]
        · exact ih
        · simp [hp]
      · simp [hp]

/-- After an insertion, the cache holds exactly one binding of the
inserted key, with the inserted tree. -/
theorem filter_insertTree (k : TreeKey) (t : Tree) (m : List (TreeKey × Tree)) :
    (insertTree k t m).filter (fun e => e.1 == k) = [(k, t)] := by
  unfold insertTree
  rw [List.filter_cons_of_pos]
  · rw [filter_p_filter_not]
  · simp

/-- Lookup of the key just inserted yields the inserted tree. -/
theorem lookupTree_insertTree_self (k : TreeKey) (t : Tree)
    (m : List (TreeKey × Tree)) :
    lookupTree (insertTree k t m) k = some t := by
  simp [lookupTree, insertTree, List.find?_cons_of_pos]

/-- `find?` is unaffected by a filter that keeps every element the
search predicate accepts. -/
theorem find?_filter_of_imp (p q : (TreeKey × Tree) → Bool)
    (l : List (TreeKey × Tree))
    (h : ∀ a, p a = true → q a = true) :
    (l.filter q).find? p = l.find? p := by
  induction l with
  | nil => rfl
  | cons a t ih =>
    cases hq : q a with
    | true =>
      rw [List.filter_cons_of_pos]
      · cases hp : p a with
        | true =>
          rw [List.find?_cons_of_pos, List.find?_cons_of_pos] <;> simp [hp]
        | false =>
          rw [List.find?_cons_of_neg, List.find?_cons_of_neg]
          · exact ih
          · simp [hp]
          · simp [hp]
      · simp [hq]
    | false =>
      have hp : p a = false := by
        cases hpa : p a with
        | true => rw [h a hpa] at hq; exact absurd hq (by simp)
        | false => rfl
      rw [List.filter_cons_of_neg]
      · rw [List.find?_cons_of_neg]
        · exact ih
        · simp [hp]
      · simp [hq]

/-- Insertion leaves the binding of every other key untouched. -/
theorem lookupTree_insertTree_ne (k k' : TreeKey) (t : Tree)
    (m : List (TreeKey × Tree)) (hne : k' ≠ k) :
    lookupTree (insertTree k t m) k' = lookupTree m k' := by
  unfold lookupTree insertTree
  rw [List.find?_cons_of_neg, find?_filter_of_imp]
  · intro e he
    have h1 : e.1 = k' := by simpa using he
    simp [h1, hne]
  · simp [Ne.symm hne]

/-- Computed behaviour of `handle_highlight_req` when the language name
does not resolve: the handler is returned unchanged and nothing is
logged. -/
theorem hhr_unknown_lang (env : Env) (h : RequestHandler) (s b l p : String)
    (hl : env.get_lang l = none) :
    RequestHandler.handle_highlight_req env h s b l p = .ok (h, []) := by
  simp [RequestHandler.handle_highlight_req, hl]

/-- Computed behaviour of `handle_highlight_req` when everything
succeeds: the new tree is inserted at `(session, buffer)`. -/
theorem hhr_ok (env : Env) (h : RequestHandler) (s b l p c : String)
    (lang : Language) (t : Tree)
    (hl : env.get_lang l = some lang) (hr : env.read_to_string p = .ok c)
    (hs : env.set_language lang = .ok ()) (hp : env.parse lang c = some t) :
    RequestHandler.handle_highlight_req env h s b l p =
      .ok (⟨insertTree (s, b) t h.trees⟩,
           [LogEntry.handlingHighlight s b l, LogEntry.treeParsed s b]) := by
  simp [RequestHandler.handle_highlight_req, RequestHandler.parse_buffer,
        hl, hr, hs, hp]

/-- Computed behaviour of `handle_highlight_req` when the parser yields
no tree: the handler state is returned unchanged. -/
theorem hhr_parse_none (env : Env) (h : RequestHandler) (s b l p c : String)
    (lang : Language)
    (hl : env.get_lang l = some lang) (hr : env.read_to_string p = .ok c)
    (hs : env.set_language lang = .ok ()) (hp : env.parse lang c = none) :
    RequestHandler.handle_highlight_req env h s b l p =
      .ok (h, [LogEntry.handlingHighlight s b l]) := by
  simp [RequestHandler.handle_highlight_req, RequestHandler.parse_buffer,
        hl, hr, hs, hp]

/-- Computed behaviour of `handle_highlight_req` when the buffer file is
unreadable: the `unwrap()` panics. -/
theorem hhr_read_error (env : Env) (h : RequestHandler) (s b l p : String)
    (lang : Language) (e : IoError)
    (hl : env.get_lang l = some lang) (hr : env.read_to_string p = .error e) :
    RequestHandler.handle_highlight_req env h s b l p =
      .error (Panic.ioPanic e) := by
  simp [RequestHandler.handle_highlight_req, RequestHandler.parse_buffer, hl, hr]

/-- Computed behaviour of `handle_highlight_req` when configuring the
parser fails: the `unwrap()` panics. -/
theorem hhr_setlang_error (env : Env) (h : RequestHandler) (s b l p c : String)
    (lang : Language) (e : String)
    (hl : env.get_lang l = some lang) (hr : env.read_to_string p = .ok c)
    (hs : env.set_language lang = .error e) :
    RequestHandler.handle_highlight_req env h s b l p =
      .error (Panic.setLangPanic e) := by
  simp [RequestHandler.handle_highlight_req, RequestHandler.parse_buffer,
        hl, hr, hs]

/-- Computed behaviour of `handle_request` on an undecodable payload:
the failure is logged with the payload and the reason, the handler is
unchanged. -/
theorem handle_request_decode_error (env : Env) (h : RequestHandler)
    (p e : String) (hp : env.from_str p = .error e) :
    RequestHandler.handle_request env h p =
      .ok (h, [LogEntry.cannotParse p e]) := by
  simp [RequestHandler.handle_request, hp]

/-- A successful `handle_highlight_req` never changes the binding of any
key other than the request's own `(session, buffer)`. -/
theorem lookup_frame (env : Env) (g g2 : RequestHandler) (s bf l p : String)
    (logs : List LogEntry) (k : TreeKey)
    (hok : RequestHandler.handle_highlight_req env g s bf l p = .ok (g2, logs))
    (hk : k ≠ (s, bf)) :
    lookupTree g2.trees k = lookupTree g.trees k := by
  cases hgl : env.get_lang l with
  | none =>
    rw [hhr_unknown_lang env g s bf l p hgl] at hok
    simp only [Except.ok.injEq, Prod.mk.injEq] at hok
    rw [← hok.1]
  | some lang =>
    cases hrd : env.read_to_string p with
    | error e =>
      rw [hhr_read_error env g s bf l p lang e hgl hrd] at hok
      cases hok
    | ok content =>
      cases hsl : env.set_language lang with
      | error e =>
        rw [hhr_setlang_error env g s bf l p content lang e hgl hrd hsl] at hok
        cases hok
      | ok u =>
        cases u
        cases hpr : env.parse lang content with
        | none =>
          rw [hhr_parse_none env g s bf l p content lang hgl hrd hsl hpr] at hok
          simp only [Except.ok.injEq, Prod.mk.injEq] at hok
          rw [← hok.1]
        | some t =>
          rw [hhr_ok env g s bf l p content lang t hgl hrd hsl hpr] at hok
          simp only [Except.ok.injEq, Prod.mk.injEq] at hok
          rw [← hok.1]
          exact lookupTree_insertTree_ne (s, bf) k t g.trees hk

end KakTreeSitter

namespace KakTreeSitter

/-! ## Claim theorems -/

/-- Claim C1: decoding the encoding of any valid `Request` value yields
the same value back (round-trip law of the request codec). -/
theorem decode_encode_roundtrip (r : Request) : decode (encode r) = .ok r := by
  cases r
  rfl

/-- Claim C2: an empty payload read from an accepted connection
terminates the serving loop with no request handled, no matter how many
further connections are pending, and dropping the daemon removes its
runtime directory from the filesystem. -/
theorem empty_payload_shutdown (env : Env) (h : RequestHandler)
    (rest : List Conn) (d : Daemon) (fs : String → Bool) :
    runLoop env h (Conn.accepted (.ok "") :: rest) =
      ⟨h, [LogEntry.clientConnected, LogEntry.requestLogged ""], [],
       RunOutcome.finished⟩ ∧
    Daemon.drop d fs d.daemon_dir = false := by
  constructor
  · simp [runLoop]
  · simp [Daemon.drop, removeDirAll]

/-- Claim C3 (code evaluated at the failing inputs): when the buffer
file of a decoded Highlight request is unreadable, the serving loop ends
in a panic (the `unwrap()` on `read_to_string`), abandoning the loop
rather than logging and continuing; likewise a failed socket read
panics via its `unwrap()` and terminates the loop. -/
theorem io_failure_panics (env : Env) (h : RequestHandler)
    (s b l p req : String) (lang : Language) (e e2 : IoError)
    (rest : List Conn)
    (hf : env.from_str req = .ok (Request.highlight s b l p))
    (hl : env.get_lang l = some lang)
    (hr : env.read_to_string p = .error e)
    (hreq : req ≠ "") :
    runLoop env h (Conn.accepted (.ok req) :: rest) =
      ⟨h, [LogEntry.clientConnected, LogEntry.requestLogged req], [req],
       RunOutcome.panicked (Panic.ioPanic e)⟩ ∧
    runLoop env h (Conn.accepted (.error e2) :: rest) =
      ⟨h, [LogEntry.clientConnected], [],
       RunOutcome.panicked (Panic.readPanic e2)⟩ := by
  constructor
  · have hrq : RequestHandler.handle_request env h req =
        .error (Panic.ioPanic e) := by
      rw [RequestHandler.handle_request, hf]
      exact hhr_read_error env h s b l p lang e hl hr
    simp [runLoop, hreq, hrq]
  · rfl

/-- Claim C4: after two successive Highlight requests for the same
`(session, buffer)` key with different buffer content, the tree cache
holds exactly one binding for that key, and it is the tree of the
second parse. -/
theorem cache_replacement (env1 env2 : Env) (h : RequestHandler)
    (s b l path c1 c2 : String) (lang : Language) (t1 t2 : Tree)
    (h1l : env1.get_lang l = some lang)
    (h1r : env1.read_to_string path = .ok c1)
    (h1s : env1.set_language lang = .ok ())
    (h1p : env1.parse lang c1 = some t1)
    (h2l : env2.get_lang l = some lang)
    (h2r : env2.read_to_string path = .ok c2)
    (h2s : env2.set_language lang = .ok ())
    (h2p : env2.parse lang c2 = some t2)
    (hc : c1 ≠ c2) :
    RequestHandler.handle_highlight_req env1 h s b l path =
      .ok (⟨insertTree (s, b) t1 h.trees⟩,
           [LogEntry.handlingHighlight s b l, LogEntry.treeParsed s b]) ∧
    RequestHandler.handle_highlight_req env2 ⟨insertTree (s, b) t1 h.trees⟩
        s b l path =
      .ok (⟨insertTree (s, b) t2 (insertTree (s, b) t1 h.trees)⟩,
           [LogEntry.handlingHighlight s b l, LogEntry.treeParsed s b]) ∧
    (insertTree (s, b) t2 (insertTree (s, b) t1 h.trees)).filter
        (fun e => e.1 == (s, b)) = [((s, b), t2)] ∧
    lookupTree (insertTree (s, b) t2 (insertTree (s, b) t1 h.trees)) (s, b) =
      some t2 :=
  ⟨hhr_ok env1 h s b l path c1 lang t1 h1l h1r h1s h1p,
   hhr_ok env2 ⟨insertTree (s, b) t1 h.trees⟩ s b l path c2 lang t2
     h2l h2r h2s h2p,
   filter_insertTree (s, b) t2 (insertTree (s, b) t1 h.trees),
   lookupTree_insertTree_self (s, b) t2 (insertTree (s, b) t1 h.trees)⟩

/-- Claim C5: a Highlight request whose language name the registry does
not resolve leaves the tree cache (indeed the whole handler) unchanged,
produces no tree, logs nothing, and does not panic. -/
theorem unknown_lang_noop (env : Env) (h : RequestHandler) (s b l p : String)
    (hl : env.get_lang l = none) :
    RequestHandler.handle_highlight_req env h s b l p = .ok (h, []) :=
  hhr_unknown_lang env h s b l p hl

/-- Claim C6: an undecodable payload is logged together with its decode
failure reason, the handler state is unchanged, the serving loop keeps
running, and a following well-formed request is accepted and processed
normally. -/
theorem decode_failure_isolation (env : Env) (h h2 : RequestHandler)
    (p q e : String) (l2 : List LogEntry)
    (hp : env.from_str p = .error e) (hp0 : p ≠ "") (hq0 : q ≠ "")
    (hq : RequestHandler.handle_request env h q = .ok (h2, l2)) :
    RequestHandler.handle_request env h p =
      .ok (h, [LogEntry.cannotParse p e]) ∧
    runLoop env h [Conn.accepted (.ok p), Conn.accepted (.ok q)] =
      ⟨h2,
       [LogEntry.clientConnected, LogEntry.requestLogged p,
        LogEntry.cannotParse p e, LogEntry.clientConnected,
        LogEntry.requestLogged q] ++ l2,
       [p, q], RunOutcome.finished⟩ := by
  have hrp := handle_request_decode_error env h p e hp
  constructor
  · exact hrp
  · simp [runLoop, hp0, hq0, hrp, hq]

/-- Claim C7: a successful Highlight request never modifies or removes
the cache binding of any key other than its own `(session, buffer)`;
in particular two requests sharing a buffer name but with different
session names produce two independent bindings. -/
theorem cache_isolation (env1 env2 : Env) (h : RequestHandler)
    (s1 s2 b l1 l2 p1 p2 c1 c2 : String) (lang1 lang2 : Language)
    (t1 t2 : Tree)
    (hs : s1 ≠ s2)
    (h1l : env1.get_lang l1 = some lang1)
    (h1r : env1.read_to_string p1 = .ok c1)
    (h1s : env1.set_language lang1 = .ok ())
    (h1p : env1.parse lang1 c1 = some t1)
    (h2l : env2.get_lang l2 = some lang2)
    (h2r : env2.read_to_string p2 = .ok c2)
    (h2s : env2.set_language lang2 = .ok ())
    (h2p : env2.parse lang2 c2 = some t2) :
    (∀ (env : Env) (g g2 : RequestHandler) (s bf l p : String)
       (logs : List LogEntry) (k : TreeKey),
       RequestHandler.handle_highlight_req env g s bf l p = .ok (g2, logs) →
       k ≠ (s, bf) → lookupTree g2.trees k = lookupTree g.trees k) ∧
    RequestHandler.handle_highlight_req env1 h s1 b l1 p1 =
      .ok (⟨insertTree (s1, b) t1 h.trees⟩,
           [LogEntry.handlingHighlight s1 b l1, LogEntry.treeParsed s1 b]) ∧
    RequestHandler.handle_highlight_req env2 ⟨insertTree (s1, b) t1 h.trees⟩
        s2 b l2 p2 =
      .ok (⟨insertTree (s2, b) t2 (insertTree (s1, b) t1 h.trees)⟩,
           [LogEntry.handlingHighlight s2 b l2, LogEntry.treeParsed s2 b]) ∧
    lookupTree (insertTree (s2, b) t2 (insertTree (s1, b) t1 h.trees))
        (s1, b) = some t1 ∧
    lookupTree (insertTree (s2, b) t2 (insertTree (s1, b) t1 h.trees))
        (s2, b) = some t2 := by
  refine ⟨lookup_frame,
          hhr_ok env1 h s1 b l1 p1 c1 lang1 t1 h1l h1r h1s h1p,
          hhr_ok env2 ⟨insertTree (s1, b) t1 h.trees⟩ s2 b l2 p2 c2 lang2 t2
            h2l h2r h2s h2p,
          ?_,
          lookupTree_insertTree_self (s2, b) t2 (insertTree (s1, b) t1 h.trees)⟩
  rw [lookupTree_insertTree_ne (s2, b) (s1, b) t2
        (insertTree (s1, b) t1 h.trees) (by simp [hs])]
  exact lookupTree_insertTree_self (s1, b) t1 h.trees

/-- Claim C8: a Highlight request for which the parser yields no tree
leaves the tree cache (indeed the whole handler state) completely
unchanged: nothing is inserted, replaced or removed for any key. -/
theorem parse_none_no_mutation (env : Env) (h : RequestHandler)
    (s b l p c : String) (lang : Language)
    (hl : env.get_lang l = some lang) (hr : env.read_to_string p = .ok c)
    (hs : env.set_language lang = .ok ()) (hp : env.parse lang c = none) :
    RequestHandler.handle_highlight_req env h s b l p =
      .ok (h, [LogEntry.handlingHighlight s b l]) :=
  hhr_parse_none env h s b l p c lang hl hr hs hp

/-- Claim C9: formatting a command for editor delivery always appends a
newline; with a client name the command is wrapped in an `eval -client`
directive quoted in single quotes, without one the raw command is
emitted followed only by the newline. -/
theorem fmt_cmd_spec (cmd client sess : String) :
    KakSession.fmt_cmd ⟨sess, some client⟩ cmd =
      "eval -client " ++ client ++ " " ++ squote ++ cmd ++ squote ++ "\n" ∧
    KakSession.fmt_cmd ⟨sess, none⟩ cmd = cmd ++ "\n" ∧
    ∀ ks : KakSession, ∃ y : String, ks.fmt_cmd cmd = y ++ "\n" := by
  refine ⟨rfl, rfl, ?_⟩
  intro ks
  cases ks with
  | mk sn cn =>
    cases cn with
    | none => exact ⟨cmd, rfl⟩
    | some c =>
      refine ⟨"eval -client " ++ c ++ " " ++ squote ++ cmd ++ squote, ?_⟩
      simp [KakSession.fmt_cmd, String.append_assoc]

/-- Claim C10: an error from the listener's accept step is skipped
silently — the iteration reads nothing, handles nothing, logs nothing —
and the loop goes on with the remaining connections exactly as if the
failed accept had never happened. -/
theorem accept_error_skipped (env : Env) (h : RequestHandler)
    (rest : List Conn) :
    runLoop env h (Conn.acceptError :: rest) = runLoop env h rest := rfl

end KakTreeSitter

namespace KakTreeSitter

/-! ## Concrete witnesses -/

/-- Witness for claim C3 at a concrete environment: a Highlight request
for an unreadable file, and a connection whose socket read fails, both
end the loop in a panic. -/
theorem io_failure_panics_witness :
    runLoop envW3 RequestHandler.new [Conn.accepted (.ok "bad-path")] =
      ⟨RequestHandler.new,
       [LogEntry.clientConnected, LogEntry.requestLogged "bad-path"],
       ["bad-path"], RunOutcome.panicked (Panic.ioPanic "unreadable")⟩ ∧
    runLoop envW3 RequestHandler.new [Conn.accepted (.error "io")] =
      ⟨RequestHandler.new, [LogEntry.clientConnected], [],
       RunOutcome.panicked (Panic.readPanic "io")⟩ :=
  io_failure_panics envW3 RequestHandler.new "s" "b" "rust" "/missing"
    "bad-path" rustLang "unreadable" "io" [] rfl rfl rfl (by decide)

/-- Witness for claim C4 at a concrete environment: the same buffer
parsed twice with different content keeps exactly the second tree. -/
theorem cache_replacement_witness :
    RequestHandler.handle_highlight_req envW1 RequestHandler.new
        "s" "b" "rust" "/f" =
      .ok (⟨insertTree ("s", "b") treeOne RequestHandler.new.trees⟩,
           [LogEntry.handlingHighlight "s" "b" "rust",
            LogEntry.treeParsed "s" "b"]) ∧
    RequestHandler.handle_highlight_req envW2
        ⟨insertTree ("s", "b") treeOne RequestHandler.new.trees⟩
        "s" "b" "rust" "/f" =
      .ok (⟨insertTree ("s", "b") treeTwo
              (insertTree ("s", "b") treeOne RequestHandler.new.trees)⟩,
           [LogEntry.handlingHighlight "s" "b" "rust",
            LogEntry.treeParsed "s" "b"]) ∧
    (insertTree ("s", "b") treeTwo
        (insertTree ("s", "b") treeOne RequestHandler.new.trees)).filter
        (fun e => e.1 == ("s", "b")) = [(("s", "b"), treeTwo)] ∧
    lookupTree (insertTree ("s", "b") treeTwo
        (insertTree ("s", "b") treeOne RequestHandler.new.trees)) ("s", "b") =
      some treeTwo :=
  cache_replacement envW1 envW2 RequestHandler.new "s" "b" "rust" "/f"
    "one" "two" rustLang treeOne treeTwo rfl rfl rfl rfl rfl rfl rfl rfl
    (by decide)

/-- Witness for claim C5 at a concrete environment: a request with the
unresolvable language name `nope` is a complete no-op. -/
theorem unknown_lang_noop_witness :
    envW1.get_lang "nope" = none ∧
    RequestHandler.handle_highlight_req envW1 RequestHandler.new
        "s" "b" "nope" "/f" = .ok (RequestHandler.new, []) :=
  ⟨rfl, unknown_lang_noop envW1 RequestHandler.new "s" "b" "nope" "/f" rfl⟩

/-- Witness for claim C6 at a concrete environment: the malformed
payload `evil` is logged and the well-formed payload `good` that follows
is processed normally. -/
theorem decode_failure_isolation_witness :
    RequestHandler.handle_request envW1 RequestHandler.new "evil" =
      .ok (RequestHandler.new,
           [LogEntry.cannotParse "evil" "bad payload"]) ∧
    runLoop envW1 RequestHandler.new
        [Conn.accepted (.ok "evil"), Conn.accepted (.ok "good")] =
      ⟨⟨insertTree ("s", "b") treeOne RequestHandler.new.trees⟩,
       [LogEntry.clientConnected, LogEntry.requestLogged "evil",
        LogEntry.cannotParse "evil" "bad payload", LogEntry.clientConnected,
        LogEntry.requestLogged "good"] ++
         [LogEntry.handlingHighlight "s" "b" "rust",
          LogEntry.treeParsed "s" "b"],
       ["evil", "good"], RunOutcome.finished⟩ :=
  decode_failure_isolation envW1 RequestHandler.new
    ⟨insertTree ("s", "b") treeOne RequestHandler.new.trees⟩
    "evil" "good" "bad payload"
    [LogEntry.handlingHighlight "s" "b" "rust", LogEntry.treeParsed "s" "b"]
    rfl (by decide) (by decide) rfl

/-- Witness for claim C7 at a concrete environment: sessions `s1` and
`s2` sharing buffer `b` end up with two independent cache bindings. -/
theorem cache_isolation_witness :
    RequestHandler.handle_highlight_req envW1 RequestHandler.new
        "s1" "b" "rust" "/f" =
      .ok (⟨insertTree ("s1", "b") treeOne RequestHandler.new.trees⟩,
           [LogEntry.handlingHighlight "s1" "b" "rust",
            LogEntry.treeParsed "s1" "b"]) ∧
    RequestHandler.handle_highlight_req envW2
        ⟨insertTree ("s1", "b") treeOne RequestHandler.new.trees⟩
        "s2" "b" "rust" "/f" =
      .ok (⟨insertTree ("s2", "b") treeTwo
              (insertTree ("s1", "b") treeOne RequestHandler.new.trees)⟩,
           [LogEntry.handlingHighlight "s2" "b" "rust",
            LogEntry.treeParsed "s2" "b"]) ∧
    lookupTree (insertTree ("s2", "b") treeTwo
        (insertTree ("s1", "b") treeOne RequestHandler.new.trees))
        ("s1", "b") = some treeOne ∧
    lookupTree (insertTree ("s2", "b") treeTwo
        (insertTree ("s1", "b") treeOne RequestHandler.new.trees))
        ("s2", "b") = some treeTwo :=
  (cache_isolation envW1 envW2 RequestHandler.new "s1" "s2" "b"
    "rust" "rust" "/f" "/f" "one" "two" rustLang rustLang treeOne treeTwo
    (by decide) rfl rfl rfl rfl rfl rfl rfl rfl).2

/-- Witness for claim C8 at a concrete environment: a parser-internal
failure leaves the handler untouched. -/
theorem parse_none_no_mutation_witness :
    RequestHandler.handle_highlight_req envW4 RequestHandler.new
        "s" "b" "rust" "/f" =
      .ok (RequestHandler.new, [LogEntry.handlingHighlight "s" "b" "rust"]) :=
  parse_none_no_mutation envW4 RequestHandler.new "s" "b" "rust" "/f"
    "one" rustLang rfl rfl rfl rfl

end KakTreeSitter
